import Mathlib

/-!
Shallow embedding of the Yatube blogging application's core
(`yatube/posts/views.py` and the data model it manipulates) for
verification of its specification.

Modelling conventions:
* The relational store is a `DB` record of entity lists; usernames and
  group slugs (both unique keys) stand for foreign keys.
* Django's `Paginator` / `Page` collaborator is embedded from its
  documented semantics (`django/core/paginator.py`, defaults
  `orphans = 0`, `allow_empty_first_page = True`).
* View functions become pure functions `DB → … → DB × Response`; the
  returned `DB` is the post-state (read-only views return their input
  state, matching the absence of any ORM write in the source).
* Rendering is abstracted to the `Response` constructors carrying the
  context data that the claims mention; constant template context
  (titles, form field metadata) is omitted.
-/

namespace Yatube

/-- A `Post` row: `posts.models.Post`. The `group` foreign key is stored
as the group's unique slug; `author` as the unique username; `created`
is the creation timestamp (`pub_date`). -/
structure Post where
  id : Nat
  author : String
  text : String
  group : Option String
  created : Nat
  deriving DecidableEq, Repr

/-- A `Group` row: unique `slug` plus title. -/
structure Group where
  slug : String
  title : String
  deriving DecidableEq, Repr

/-- A `Comment` row: attached to one post, authored by one user. -/
structure Comment where
  post : Nat
  author : String
  text : String
  deriving DecidableEq, Repr

/-- A `Follow` edge: `user` (the follower) follows `author`. -/
structure Follow where
  user : String
  author : String
  deriving DecidableEq, Repr

/-- The relational store. -/
structure DB where
  users : List String
  groups : List Group
  posts : List Post
  comments : List Comment
  follows : List Follow
  deriving DecidableEq, Repr

/-- `NUM_POSTS = 10`, the page size constant of `posts/views.py`. -/
def NUM_POSTS : Nat := 10

/-- A page-number argument as it reaches `Paginator.get_page`: Python
`None` (missing query argument), a raw query string, or an `int`
(the literal default `1` in the `profile` view). -/
inductive PageArg where
  | none : PageArg
  | str : String → PageArg
  | int : Int → PageArg
  deriving DecidableEq, Repr

/-- The two exceptions of `django.core.paginator` that
`Paginator.get_page` catches. -/
inductive PageError where
  | notAnInteger : PageError
  | emptyPage : PageError
  deriving DecidableEq, Repr

/-- A run of decimal digits read as a number. -/
def digitsToNat (ds : List Char) : Nat :=
  ds.foldl (fun n c => n * 10 + (c.toNat - 48)) 0

/-- A non-empty all-digit character run, or nothing. -/
def digitRun (ds : List Char) : Option Nat :=
  if ds.length > 0 && ds.all Char.isDigit then Option.some (digitsToNat ds)
  else Option.none

/-- Model of Python `int(str)` as used by `Paginator.validate_number`:
surrounding whitespace is ignored, an optional single sign is allowed,
then at least one decimal digit. (Digit-group underscores of Python ≥
3.6 are not modelled; no claim depends on them.) -/
def pyStrToInt (s : String) : Option Int :=
  let t := ((s.data.dropWhile Char.isWhitespace).reverse.dropWhile
    Char.isWhitespace).reverse
  match t with
  | [] => Option.none
  | c :: rest =>
    if c = '-' then (digitRun rest).map (fun n => -(n : Int))
    else if c = '+' then (digitRun rest).map (fun n => (n : Int))
    else (digitRun (c :: rest)).map (fun n => (n : Int))

/-- Python `int(number)` over the three shapes a page argument takes:
`None` raises `TypeError`, a non-numeric string raises `ValueError`
(both caught as `PageNotAnInteger`), an `int` is returned as is. -/
def pyToInt : PageArg → Option Int
  | PageArg.none => Option.none
  | PageArg.str s => pyStrToInt s
  | PageArg.int n => Option.some n

/-- `django.core.paginator.Paginator(object_list, per_page)` with the
default `orphans = 0` and `allow_empty_first_page = True`. -/
structure Paginator (α : Type) where
  object_list : List α
  per_page : Nat
  deriving DecidableEq, Repr

/-- A `Page` object: 1-indexed page number plus its slice of objects. -/
structure PageObj (α : Type) where
  number : Nat
  object_list : List α
  deriving DecidableEq, Repr

namespace Paginator

variable {α : Type}

/-- `Paginator.count`: total number of objects. -/
def count (p : Paginator α) : Nat := p.object_list.length

/-- `Paginator.num_pages = ceil(max(1, count) / per_page)` (with
`orphans = 0`; the empty first page is allowed, so an empty collection
still has one page). -/
def num_pages (p : Paginator α) : Nat :=
  (max 1 p.count + p.per_page - 1) / p.per_page

/-- `Paginator.page(number)` (bounds already validated): the slice
`object_list[(number-1)*per_page : number*per_page]`. -/
def page (p : Paginator α) (number : Nat) : PageObj α :=
  ⟨number, (p.object_list.drop ((number - 1) * p.per_page)).take p.per_page⟩

/-- `Paginator.validate_number`: convert with `int(...)` (failure:
`PageNotAnInteger`), reject numbers below 1 (`EmptyPage`), allow an
empty first page, reject numbers above `num_pages` (`EmptyPage`). -/
def validate_number (p : Paginator α) (number : PageArg) : Except PageError Nat :=
  match pyToInt number with
  | Option.none => Except.error PageError.notAnInteger
  | Option.some n =>
    if n < 1 then Except.error PageError.emptyPage
    else if (p.num_pages : Int) < n then
      if n = 1 then Except.ok 1
      else Except.error PageError.emptyPage
    else Except.ok n.toNat

/-- `Paginator.get_page`: a non-integer argument falls back to page 1,
an out-of-range argument to the last page. -/
def get_page (p : Paginator α) (number : PageArg) : PageObj α :=
  match p.validate_number number with
  | Except.error PageError.notAnInteger => p.page 1
  | Except.error PageError.emptyPage => p.page p.num_pages
  | Except.ok n => p.page n

end Paginator

/-- The ordering relation of the feeds: a later (larger) creation
timestamp comes first. -/
def laterFirst (p q : Post) : Prop := q.created ≤ p.created

instance : DecidableRel laterFirst := fun p q => Nat.decLe q.created p.created

instance : IsTotal Post laterFirst :=
  ⟨fun p q => Nat.le_total q.created p.created⟩

instance : IsTrans Post laterFirst :=
  ⟨fun _ _ _ hpq hqr => Nat.le_trans hqr hpq⟩

/-- Modelled from the spec: `posts/models.py` is absent from `src/`, so
the default ordering that `Post.objects.all()` (and the related-manager
queries) inherit from `Post.Meta` is taken from the spec's ordering
invariant — "Posts are always retrieved in reverse-chronological order
(newest first) for every feed view". -/
def newestFirst (l : List Post) : List Post :=
  l.insertionSort laterFirst

/-- `Post.objects.all()`: every post, newest first. -/
def allPostsFeed (db : DB) : List Post :=
  newestFirst db.posts

/-- `group.posts.all()`: the posts of the group with the given slug,
newest first. -/
def groupFeed (db : DB) (slug : String) : List Post :=
  newestFirst (db.posts.filter (fun p => p.group == Option.some slug))

/-- `user.posts.all()`: the posts of the given author, newest first. -/
def profileFeed (db : DB) (username : String) : List Post :=
  newestFirst (db.posts.filter (fun p => p.author == username))

/-- Modelled from the spec: the `follow_index` view is absent from
`src/` (referenced only by tests); per the spec it shows "Posts
authored by any User that the requesting (authenticated) User currently
follows, newest first". -/
def followFeed (db : DB) (viewer : String) : List Post :=
  newestFirst (db.posts.filter
    (fun p => db.follows.any (fun f => f.user == viewer && f.author == p.author)))

/-- The responses a view can produce, abstracting rendering to the
context data the claims are about. -/
inductive Response where
  | renderPage : String → PageObj Post → Response
  | renderDetail : Post → List Comment → Response
  | renderForm : String → Bool → Response
  | redirect : String → String → Response
  | notFound : Response
  deriving DecidableEq, Repr

/-- `get_object_or_404(Group, slug=slug)` as a fallible lookup. -/
def get_group_or_404 (db : DB) (slug : String) : Option Group :=
  db.groups.find? (fun g => g.slug == slug)

/-- `get_object_or_404(User, username=username)` as a fallible lookup. -/
def get_user_or_404 (db : DB) (username : String) : Option String :=
  db.users.find? (fun u => u == username)

/-- `get_object_or_404(Post, id=post_id)` as a fallible lookup. -/
def get_post_or_404 (db : DB) (post_id : Nat) : Option Post :=
  db.posts.find? (fun p => p.id == post_id)

/-- `request.GET.get('page')` (the `index` and `group_posts` idiom): an
absent argument reaches the paginator as `None`. -/
def pageArgNoDefault : Option String → PageArg
  | Option.none => PageArg.none
  | Option.some s => PageArg.str s

/-- `request.GET.get('page', 1)` (the `profile` idiom): an absent
argument reaches the paginator as the `int` 1. -/
def pageArgDefaultOne : Option String → PageArg
  | Option.none => PageArg.int 1
  | Option.some s => PageArg.str s

/-- The `index` view (without its cache decorator; see `cached_index`):
paginate all posts and render `posts/index.html`. -/
def index (db : DB) (pageQuery : Option String) : DB × Response :=
  let paginator : Paginator Post := ⟨allPostsFeed db, NUM_POSTS⟩
  let page_obj := paginator.get_page (pageArgNoDefault pageQuery)
  (db, Response.renderPage "posts/index.html" page_obj)

/-- The `group_posts` view: look the group up by slug (404 when
absent), paginate its posts, render `posts/group_list.html`. -/
def group_posts (db : DB) (slug : String) (pageQuery : Option String) : DB × Response :=
  match get_group_or_404 db slug with
  | Option.none => (db, Response.notFound)
  | Option.some _ =>
    let paginator : Paginator Post := ⟨groupFeed db slug, NUM_POSTS⟩
    let page_obj := paginator.get_page (pageArgNoDefault pageQuery)
    (db, Response.renderPage "posts/group_list.html" page_obj)

/-- The `profile` view: look the user up by username (404 when absent),
paginate their posts, render `posts/profile.html`. -/
def profile (db : DB) (username : String) (pageQuery : Option String) : DB × Response :=
  match get_user_or_404 db username with
  | Option.none => (db, Response.notFound)
  | Option.some _ =>
    let paginator : Paginator Post := ⟨profileFeed db username, NUM_POSTS⟩
    let page_obj := paginator.get_page (pageArgDefaultOne pageQuery)
    (db, Response.renderPage "posts/profile.html" page_obj)

/-- The `post_detail` view: look the post up by id (404 when absent)
and render it with its comments. -/
def post_detail (db : DB) (post_id : Nat) : DB × Response :=
  match get_post_or_404 db post_id with
  | Option.none => (db, Response.notFound)
  | Option.some post =>
    (db, Response.renderDetail post (db.comments.filter (fun c => c.post == post.id)))

/-- The submitted data of a `PostForm` (fields `text`, `group`,
`image`; the image is irrelevant to the claims and omitted). -/
structure PostFormData where
  text : String
  group : Option String
  deriving DecidableEq, Repr

/-- Whether a string is blank (empty or whitespace only). -/
def strBlank (s : String) : Bool :=
  s.data.all Char.isWhitespace

/-- Modelled from the spec: `posts/forms.py` is absent from `src/`.
The spec's ValidationError taxonomy makes malformed submitted text the
failure case; a Django `CharField` is required and strips whitespace,
so the form is valid exactly when the text is not blank. -/
def PostFormData.is_valid (f : PostFormData) : Bool :=
  !(strBlank f.text)

/-- The submitted data of a `CommentForm` (field `text`). -/
structure CommentFormData where
  text : String
  deriving DecidableEq, Repr

/-- Modelled from the spec: `posts/forms.py` is absent from `src/`; as
for `PostFormData`, a comment is valid exactly when its text is not
blank. -/
def CommentFormData.is_valid (f : CommentFormData) : Bool :=
  !(strBlank f.text)

/-- The `post_edit` view for an authenticated `requestUser`: 404 when
the post id is unknown; a non-author is redirected to the detail view
untouched; the author's valid form is saved (text and group replaced)
and redirected; an invalid form re-renders `create_post.html`. -/
def post_edit (db : DB) (requestUser : String) (post_id : Nat)
    (form : PostFormData) : DB × Response :=
  match get_post_or_404 db post_id with
  | Option.none => (db, Response.notFound)
  | Option.some post =>
    if post.author != requestUser then
      (db, Response.redirect "post:post_detail" (toString post_id))
    else if form.is_valid then
      let db2 := { db with posts := db.posts.map (fun p =>
        if p.id == post_id then { p with text := form.text, group := form.group } else p) }
      (db2, Response.redirect "post:post_detail" (toString post_id))
    else
      (db, Response.renderForm "posts/create_post.html" true)

/-- The `add_comment` view for an authenticated `requestUser`: 404 when
the post id is unknown; a valid form appends a comment with
`author = requestUser` and `post = post.id`; valid or not, the response
is a redirect to the post's detail view. -/
def add_comment (db : DB) (requestUser : String) (post_id : Nat)
    (form : CommentFormData) : DB × Response :=
  match get_post_or_404 db post_id with
  | Option.none => (db, Response.notFound)
  | Option.some post =>
    let db2 :=
      if form.is_valid then
        { db with comments := db.comments ++ [⟨post.id, requestUser, form.text⟩] }
      else db
    (db2, Response.redirect "posts:post_detail" (toString post_id))

/-- `Post.objects.create(...)` as the tests use it (and as the
`post_create` view's save path does): append the new row. -/
def createPost (db : DB) (p : Post) : DB :=
  { db with posts := db.posts ++ [p] }

/-- The number of `Follow` edges from `u` to `a` currently stored
(`Follow.objects.filter(user=u, author=a)` count). -/
def edgeCount (db : DB) (u a : String) : Nat :=
  (db.follows.filter (fun f => f.user == u && f.author == a)).length

/-- Modelled from the spec: the `profile_follow` view and the `Follow`
model's uniqueness constraint are absent from `src/` (referenced only
by tests). Per the spec's follow state machine, `follow(follower,
author)` creates the edge when the pair is NOT_FOLLOWING and is an
idempotent no-op when already FOLLOWING (the uniqueness invariant
forbids a duplicate edge). -/
def follow (db : DB) (u a : String) : DB :=
  if db.follows.any (fun f => f.user == u && f.author == a) then db
  else { db with follows := db.follows ++ [⟨u, a⟩] }

/-- `CACHE_TIMEOUT = 20`: the time window of `@cache_page(20, ...)` on
the `index` view. -/
def CACHE_TIMEOUT : Nat := 20

/-- One stored cache entry: when it was stored and the response it
holds. -/
structure CacheEntry where
  storedAt : Nat
  response : Response
  deriving DecidableEq, Repr

/-- A cache key of Django's `cache_page`: the decorator's constant
key-prefix string together with the request's URL, here kept structured
as the path plus the optional `page` query argument (the only varying
parts of a home-feed request URL). -/
def indexCacheKey (pageQuery : Option String) : String × String × Option String :=
  ("index_page", "/", pageQuery)

/-- The page cache shared by all requests. -/
structure PageCache where
  entries : List ((String × String × Option String) × CacheEntry)
  deriving DecidableEq, Repr

/-- Look a key up in the cache (the most recently stored entry for the
key wins). -/
def PageCache.lookup (c : PageCache)
    (k : String × String × Option String) : Option CacheEntry :=
  (c.entries.find? (fun kv => kv.1 == k)).map (fun kv => kv.2)

/-- Store a response under a key at time `now`. -/
def PageCache.store (c : PageCache) (k : String × String × Option String)
    (now : Nat) (r : Response) : PageCache :=
  ⟨(k, ⟨now, r⟩) :: c.entries⟩

/-- `cache.clear()`. -/
def PageCache.clear (_ : PageCache) : PageCache := ⟨[]⟩

/-- The empty cache. -/
def emptyCache : PageCache := ⟨[]⟩

/-- The `index` view as deployed, wrapped in
`@cache_page(20, key_prefix='index_page')` (Django's cache middleware,
embedded from its documented semantics: the key is built from the
constant prefix and the request URL — the query string included — and
not from the requester's identity; a stored entry younger than the
timeout short-circuits the view). `user` is the requesting identity; it
deliberately plays no part. -/
def cached_index (db : DB) (c : PageCache) (now : Nat) (user : String)
    (pageQuery : Option String) : DB × PageCache × Response :=
  let k := indexCacheKey pageQuery
  match c.lookup k with
  | Option.some e =>
    if now < e.storedAt + CACHE_TIMEOUT then (db, c, e.response)
    else
      let r := (index db pageQuery).2
      (db, c.store k now r, r)
  | Option.none =>
    let r := (index db pageQuery).2
    (db, c.store k now r, r)

/-- The posts shown by a response (the page contents of a feed
response, empty for the other response shapes). -/
def pageOf : Response → List Post
  | Response.renderPage _ pg => pg.object_list
  | _ => []

/-! Helper lemmas (shared; not tied to a single claim). -/

theorem num_pages_pos (l : List Post) :
    1 ≤ (Paginator.mk l NUM_POSTS).num_pages := by
  simp only [Paginator.num_pages, Paginator.count, NUM_POSTS]
  omega

theorem get_page_int_one (l : List Post) :
    (Paginator.mk l NUM_POSTS).get_page (PageArg.int 1) =
      (Paginator.mk l NUM_POSTS).page 1 := by
  simp only [Paginator.get_page, Paginator.validate_number, pyToInt]
  by_cases h : ((Paginator.mk l NUM_POSTS).num_pages : Int) < 1 <;>
    simp [h]

/-! Claim theorems. -/

/-- C10: the two page-number extraction idioms of the views — reading
the `page` query argument with no default (`index`, `group_posts`)
versus reading it with default `1` (`profile`) — produce the same page
object from the paginator for every query string. -/
theorem page_idioms_equivalent (l : List Post) (q : Option String) :
    (Paginator.mk l NUM_POSTS).get_page (pageArgNoDefault q) =
    (Paginator.mk l NUM_POSTS).get_page (pageArgDefaultOne q) := by
  cases q with
  | some s => rfl
  | none =>
    show (Paginator.mk l NUM_POSTS).get_page PageArg.none =
      (Paginator.mk l NUM_POSTS).get_page (PageArg.int 1)
    rw [get_page_int_one]
    rfl

/-- C3: requesting a page strictly beyond the last page clamps to the
last valid page (never an error), and an absent or non-numeric page
query argument yields page 1 under both extraction idioms. -/
theorem get_page_clamp_and_default (l : List Post) (arg : PageArg) (n : Int)
    (q : Option String) :
    (pyToInt arg = Option.some n →
      ((Paginator.mk l NUM_POSTS).num_pages : Int) < n →
      (Paginator.mk l NUM_POSTS).get_page arg =
        (Paginator.mk l NUM_POSTS).page (Paginator.mk l NUM_POSTS).num_pages) ∧
    ((q = Option.none ∨ ∃ s, q = Option.some s ∧ pyStrToInt s = Option.none) →
      (Paginator.mk l NUM_POSTS).get_page (pageArgNoDefault q) =
        (Paginator.mk l NUM_POSTS).page 1 ∧
      (Paginator.mk l NUM_POSTS).get_page (pageArgDefaultOne q) =
        (Paginator.mk l NUM_POSTS).page 1) := by
  constructor
  · intro hconv hgt
    have hpos : (1 : Int) ≤ ((Paginator.mk l NUM_POSTS).num_pages : Int) := by
      exact_mod_cast num_pages_pos l
    have hn1 : ¬ n < 1 := by omega
    have hne : n ≠ 1 := by omega
    simp only [Paginator.get_page, Paginator.validate_number, hconv, hn1,
      if_false, if_neg hn1, if_pos hgt, if_neg hne]
  · rintro (rfl | ⟨s, rfl, hs⟩)
    · exact ⟨rfl, get_page_int_one l⟩
    · constructor <;>
        simp only [pageArgNoDefault, pageArgDefaultOne, Paginator.get_page,
          Paginator.validate_number, pyToInt, hs]

/-- C4 (amended): for M posts at page size 10 the page count is
`max 1 (ceil(M/10))` — one (empty) page when M = 0 —, page 1 holds
`min(10, M)` items, and the final page holds `M mod 10` items (or 10
when `M mod 10 = 0` with M > 0, and 0 when M = 0). -/
theorem paginator_page_sizes (l : List Post) :
    (Paginator.mk l NUM_POSTS).num_pages =
      max 1 ((l.length + NUM_POSTS - 1) / NUM_POSTS) ∧
    ((Paginator.mk l NUM_POSTS).page 1).object_list.length =
      min NUM_POSTS l.length ∧
    ((Paginator.mk l NUM_POSTS).page
        (Paginator.mk l NUM_POSTS).num_pages).object_list.length =
      (if l.length = 0 then 0 else
        if l.length % NUM_POSTS = 0 then NUM_POSTS else l.length % NUM_POSTS) := by
  refine ⟨?_, ?_, ?_⟩
  · simp only [Paginator.num_pages, Paginator.count, NUM_POSTS]
    omega
  · simp only [Paginator.page, List.length_take, List.length_drop, NUM_POSTS]
    omega
  · simp only [Paginator.page, Paginator.num_pages, Paginator.count,
      List.length_take, List.length_drop, NUM_POSTS]
    rcases Nat.eq_zero_or_pos l.length with h0 | hpos
    · simp [h0]
    · rw [max_eq_right hpos]
      split_ifs <;> omega

/-- C4 counterexample: for the empty collection (M = 0) the paginator
reports one page, not `ceil(0/10) = 0` pages as the claim states. -/
theorem paginator_empty_counterexample :
    (Paginator.mk ([] : List Post) NUM_POSTS).num_pages = 1 ∧
    (List.length ([] : List Post) + NUM_POSTS - 1) / NUM_POSTS = 0 := by
  decide

/-- C1: a non-author invoking `post_edit` on an existing post, with any
submitted form data, leaves the whole store (in particular that post's
text) unchanged, and the response is a redirect to the post's read-only
detail view. -/
theorem edit_by_non_author_unchanged (db : DB) (u : String) (i : Nat)
    (f : PostFormData) (p : Post)
    (hfind : get_post_or_404 db i = Option.some p) (hne : p.author ≠ u) :
    post_edit db u i f = (db, Response.redirect "post:post_detail" (toString i)) := by
  simp [post_edit, hfind, bne_iff_ne, hne]

/-- A concrete post for instantiating hypothesis-bearing theorems. -/
def wPost : Post := ⟨1, "auth", "original text", Option.none, 0⟩

/-- A concrete store for instantiating hypothesis-bearing theorems. -/
def wDB : DB := ⟨["auth", "other"], [⟨"g", "Group G"⟩], [wPost], [], []⟩

/-- Witness for C1 at a concrete store. -/
theorem edit_by_non_author_unchanged_witness :
    post_edit wDB "other" 1 ⟨"hacked", Option.none⟩ =
      (wDB, Response.redirect "post:post_detail" (toString 1)) :=
  edit_by_non_author_unchanged wDB "other" 1 ⟨"hacked", Option.none⟩ wPost
    (by decide) (by decide)

/-- C2: each lookup-based feed view mutates nothing; it answers
`notFound` exactly when its slug/username/post-id lookup fails, and
renders its page when the lookup succeeds. -/
theorem lookup_feeds_notfound_or_render (db : DB) (slug uname : String)
    (i : Nat) (q : Option String) :
    ((group_posts db slug q).1 = db ∧ (profile db uname q).1 = db ∧
      (post_detail db i).1 = db) ∧
    ((get_group_or_404 db slug = Option.none ↔
        (group_posts db slug q).2 = Response.notFound) ∧
      (∀ g, get_group_or_404 db slug = Option.some g →
        ∃ pg, (group_posts db slug q).2 =
          Response.renderPage "posts/group_list.html" pg)) ∧
    ((get_user_or_404 db uname = Option.none ↔
        (profile db uname q).2 = Response.notFound) ∧
      (∀ u, get_user_or_404 db uname = Option.some u →
        ∃ pg, (profile db uname q).2 =
          Response.renderPage "posts/profile.html" pg)) ∧
    ((get_post_or_404 db i = Option.none ↔
        (post_detail db i).2 = Response.notFound) ∧
      (∀ p, get_post_or_404 db i = Option.some p →
        (post_detail db i).2 = Response.renderDetail p
          (db.comments.filter (fun c => c.post == p.id)))) := by
  refine ⟨⟨?_, ?_, ?_⟩, ⟨?_, ?_⟩, ⟨?_, ?_⟩, ⟨?_, ?_⟩⟩
  · cases h : get_group_or_404 db slug <;> simp [group_posts, h]
  · cases h : get_user_or_404 db uname <;> simp [profile, h]
  · cases h : get_post_or_404 db i <;> simp [post_detail, h]
  · cases h : get_group_or_404 db slug <;> simp [group_posts, h]
  · intro g hg
    refine ⟨(Paginator.mk (groupFeed db slug) NUM_POSTS).get_page
      (pageArgNoDefault q), ?_⟩
    simp [group_posts, hg]
  · cases h : get_user_or_404 db uname <;> simp [profile, h]
  · intro u hu
    refine ⟨(Paginator.mk (profileFeed db uname) NUM_POSTS).get_page
      (pageArgDefaultOne q), ?_⟩
    simp [profile, hu]
  · cases h : get_post_or_404 db i <;> simp [post_detail, h]
  · intro p hp
    simp [post_detail, hp]

/-- Witness for C2 at a concrete store: an unknown post id is a 404 and
a present group renders its page. -/
theorem lookup_feeds_notfound_or_render_witness :
    (post_detail wDB 99).2 = Response.notFound ∧
    (∃ pg, (group_posts wDB "g" Option.none).2 =
      Response.renderPage "posts/group_list.html" pg) :=
  ⟨(lookup_feeds_notfound_or_render wDB "g" "auth" 99 Option.none).2.2.2.1.mp
      (by decide),
   (lookup_feeds_notfound_or_render wDB "g" "auth" 99 Option.none).2.1.2
      ⟨"g", "Group G"⟩ (by decide)⟩

/-- C9: `add_comment` on an existing post always answers a redirect to
the post's detail view; a comment (with the requesting user as author
and the target post) is appended exactly when the form is valid; an
invalid form leaves the store unchanged. -/
theorem add_comment_redirect_and_create_iff_valid (db : DB) (u : String)
    (i : Nat) (f : CommentFormData) (p : Post)
    (hfind : get_post_or_404 db i = Option.some p) :
    (add_comment db u i f).2 = Response.redirect "posts:post_detail" (toString i) ∧
    ((add_comment db u i f).1.comments = db.comments ++ [⟨p.id, u, f.text⟩] ↔
      f.is_valid = true) ∧
    (f.is_valid = false →
      add_comment db u i f = (db, Response.redirect "posts:post_detail" (toString i))) := by
  refine ⟨?_, ⟨?_, ?_⟩, ?_⟩
  · cases hv : f.is_valid <;> simp [add_comment, hfind, hv]
  · intro h
    cases hv : f.is_valid with
    | true => rfl
    | false =>
      rw [add_comment] at h
      simp only [hfind, hv, Bool.false_eq_true, if_neg] at h
      simp at h
  · intro hv
    simp [add_comment, hfind, hv]
  · intro hv
    simp [add_comment, hfind, hv]

/-- Witness for C9 at a concrete store with a valid form. -/
theorem add_comment_redirect_witness :
    (add_comment wDB "other" 1 ⟨"nice post"⟩).2 =
      Response.redirect "posts:post_detail" (toString 1) ∧
    ((add_comment wDB "other" 1 ⟨"nice post"⟩).1.comments =
      wDB.comments ++ [⟨wPost.id, "other", "nice post"⟩] ↔
      CommentFormData.is_valid ⟨"nice post"⟩ = true) :=
  ⟨(add_comment_redirect_and_create_iff_valid wDB "other" 1 ⟨"nice post"⟩ wPost
      (by decide)).1,
   (add_comment_redirect_and_create_iff_valid wDB "other" 1 ⟨"nice post"⟩ wPost
      (by decide)).2.1⟩

/-- Helper: the edge count is positive exactly when the follow
existence test succeeds. -/
theorem edgeCount_pos_iff (db : DB) (u a : String) :
    0 < edgeCount db u a ↔
      db.follows.any (fun f => f.user == u && f.author == a) = true := by
  rw [edgeCount, ← List.countP_eq_length_filter, List.countP_pos_iff,
    List.any_eq_true]

/-- C5 (spec-modelled `follow`): from NOT_FOLLOWING, `follow(u, a)`
creates exactly one edge and a second `follow(u, a)` creates no
duplicate; with an edge present, `follow(u, a)` changes nothing. -/
theorem follow_unique_idempotent (db : DB) (u a : String) :
    (edgeCount db u a = 0 →
      edgeCount (follow db u a) u a = 1 ∧
      edgeCount (follow (follow db u a) u a) u a = 1) ∧
    (0 < edgeCount db u a → follow db u a = db) := by
  have hnoop : ∀ d : DB, 0 < edgeCount d u a → follow d u a = d := by
    intro d hd
    rw [follow, if_pos ((edgeCount_pos_iff d u a).mp hd)]
  refine ⟨?_, hnoop db⟩
  intro h0
  have hany : db.follows.any (fun f => f.user == u && f.author == a) = false := by
    cases hh : db.follows.any (fun f => f.user == u && f.author == a) with
    | false => rfl
    | true =>
      have := (edgeCount_pos_iff db u a).mpr hh
      omega
  have hone : edgeCount (follow db u a) u a = 1 := by
    have hnil : db.follows.filter (fun f => f.user == u && f.author == a) = [] :=
      List.length_eq_zero.mp h0
    rw [follow, hany, if_neg Bool.false_ne_true]
    simp [edgeCount, List.filter_append, hnil]
  exact ⟨hone, by rw [hnoop (follow db u a) (by omega)]; exact hone⟩

/-- Witness for C5 at a concrete store with no prior edge. -/
theorem follow_unique_idempotent_witness :
    edgeCount (follow wDB "other" "auth") "other" "auth" = 1 ∧
    edgeCount (follow (follow wDB "other" "auth") "other" "auth")
      "other" "auth" = 1 :=
  (follow_unique_idempotent wDB "other" "auth").1 (by decide)

/-- Helper: an insertion-sorted feed is reverse-chronological — a
strictly newer post sits at a strictly earlier index. -/
theorem newestFirst_rev_chron (m : List Post)
    (i j : Fin (newestFirst m).length)
    (h : ((newestFirst m).get j).created < ((newestFirst m).get i).created) :
    i < j := by
  by_contra hle
  push_neg at hle
  rcases eq_or_lt_of_le hle with heq | hlt
  · rw [heq] at h
    exact lt_irrefl _ h
  · have hs : List.Sorted laterFirst (newestFirst m) :=
      List.sorted_insertionSort laterFirst m
    exact absurd h (not_lt.mpr (hs.rel_get_of_lt hlt))

/-- C8 (spec-modelled ordering): in each of the four feed views —
all-posts, group, profile, follow — whenever a post was created
strictly after another, it appears at a strictly earlier position of
the retrieved sequence. -/
theorem feeds_reverse_chronological (db : DB) (slug uname viewer : String)
    (l : List Post)
    (hl : l = allPostsFeed db ∨ l = groupFeed db slug ∨
      l = profileFeed db uname ∨ l = followFeed db viewer)
    (i j : Fin l.length)
    (hij : (l.get j).created < (l.get i).created) : i < j := by
  rcases hl with rfl | rfl | rfl | rfl
  · exact newestFirst_rev_chron db.posts i j hij
  · exact newestFirst_rev_chron _ i j hij
  · exact newestFirst_rev_chron _ i j hij
  · exact newestFirst_rev_chron _ i j hij

/-- A second concrete post, strictly newer than `wPost`. -/
def wPost2 : Post := ⟨2, "auth", "second", Option.none, 5⟩

/-- A concrete store with two posts of distinct creation times. -/
def wDB8 : DB := ⟨["auth"], [], [wPost, wPost2], [], []⟩

/-- Concrete length bound for the C8 witness. -/
theorem wFeedLen0 : 0 < (allPostsFeed wDB8).length := by decide

/-- Concrete length bound for the C8 witness. -/
theorem wFeedLen1 : 1 < (allPostsFeed wDB8).length := by decide

/-- Witness for C8: in the concrete all-posts feed the newer post's
index (0) precedes the older post's index (1). -/
theorem feeds_reverse_chronological_witness :
    (⟨0, wFeedLen0⟩ : Fin (allPostsFeed wDB8).length) < ⟨1, wFeedLen1⟩ :=
  feeds_reverse_chronological wDB8 "g" "auth" "auth" (allPostsFeed wDB8)
    (Or.inl rfl) ⟨0, wFeedLen0⟩ ⟨1, wFeedLen1⟩ (by decide)

/-- Helper: a fresh entry under a key short-circuits the cached view. -/
theorem cached_index_hit (db : DB) (c : PageCache) (now : Nat) (u : String)
    (q : Option String) (e : CacheEntry)
    (hl : c.lookup (indexCacheKey q) = Option.some e)
    (hfr : now < e.storedAt + CACHE_TIMEOUT) :
    cached_index db c now u q = (db, c, e.response) := by
  simp only [cached_index, hl]
  rw [if_pos hfr]

/-- Helper: with no entry under the key, the cached view renders and
stores. -/
theorem cached_index_miss (db : DB) (c : PageCache) (now : Nat) (u : String)
    (q : Option String)
    (hl : c.lookup (indexCacheKey q) = Option.none) :
    cached_index db c now u q =
      (db, c.store (indexCacheKey q) now (index db q).2, (index db q).2) := by
  simp only [cached_index, hl]

/-- Helper: a just-stored entry is found under its key. -/
theorem lookup_store_self (c : PageCache) (k : String × String × Option String)
    (now : Nat) (r : Response) :
    (c.store k now r).lookup k = Option.some ⟨now, r⟩ := by
  rw [PageCache.store, PageCache.lookup, List.find?_cons_of_pos]
  · rfl
  · simp

/-- Helper: a strictly newest post heads the sorted feed. -/
theorem newestFirst_append_newest (l : List Post) (p : Post)
    (h : ∀ q ∈ l, q.created < p.created) :
    ∃ t, newestFirst (l ++ [p]) = p :: t := by
  have hmem : p ∈ newestFirst (l ++ [p]) := by
    simp [newestFirst]
  cases hs : newestFirst (l ++ [p]) with
  | nil => rw [hs] at hmem; cases hmem
  | cons x xs =>
    rw [hs] at hmem
    have hsorted : List.Sorted laterFirst (x :: xs) :=
      hs ▸ (List.sorted_insertionSort laterFirst (l ++ [p]))
    rcases List.mem_cons.mp hmem with heq | hx
    · exact ⟨xs, by rw [heq]⟩
    · have hrel : laterFirst x p := (List.sorted_cons.mp hsorted).1 p hx
      have hxm : x ∈ l ++ [p] := by
        have hx2 : x ∈ newestFirst (l ++ [p]) := by
          rw [hs]; exact List.mem_cons_self x xs
        simpa [newestFirst] using hx2
      rcases List.mem_append.mp hxm with hxl | hxp
      · exact absurd (h x hxl) (not_lt.mpr hrel)
      · rw [List.mem_singleton] at hxp
        exact ⟨xs, by rw [hxp]⟩

/-- Helper: the uncached index page with no page argument shows the
first `NUM_POSTS` posts of the feed. -/
theorem index_page_one (db : DB) :
    pageOf (index db Option.none).2 = (allPostsFeed db).take NUM_POSTS := rfl

/-- Helper: the head of a list is in its `NUM_POSTS`-prefix. -/
theorem mem_take_head (x : Post) (t : List Post) :
    x ∈ (x :: t).take NUM_POSTS := by
  rw [show NUM_POSTS = 9 + 1 from rfl, List.take_succ_cons]
  exact List.mem_cons_self _ _

/-- C6: with the home feed cached by request 1 at `t1`, a new strictly
newest post created and request 2 issued at `t2` inside the 20-unit
window returns content identical to request 1 — the new post invisible
— while after an explicit cache clear request 3 renders the current
feed, which shows the new post on its first page. -/
theorem cache_staleness (db : DB) (p : Post) (t1 t2 t3 : Nat)
    (u1 u2 u3 : String)
    (hfresh : ∀ q ∈ db.posts, q.created < p.created)
    (hwin : t2 < t1 + CACHE_TIMEOUT) :
    ((cached_index (createPost db p)
        (cached_index db emptyCache t1 u1 Option.none).2.1 t2 u2 Option.none).2.2 =
      (cached_index db emptyCache t1 u1 Option.none).2.2) ∧
    ((cached_index (createPost db p)
        ((cached_index (createPost db p)
          (cached_index db emptyCache t1 u1 Option.none).2.1 t2 u2 Option.none).2.1).clear
        t3 u3 Option.none).2.2 = (index (createPost db p) Option.none).2) ∧
    (p ∈ pageOf ((cached_index (createPost db p)
        ((cached_index (createPost db p)
          (cached_index db emptyCache t1 u1 Option.none).2.1 t2 u2 Option.none).2.1).clear
        t3 u3 Option.none).2.2)) ∧
    (p ∉ pageOf ((cached_index (createPost db p)
        (cached_index db emptyCache t1 u1 Option.none).2.1 t2 u2 Option.none).2.2)) := by
  have h1 := cached_index_miss db emptyCache t1 u1 Option.none rfl
  have h2 := cached_index_hit (createPost db p)
    (emptyCache.store (indexCacheKey Option.none) t1 (index db Option.none).2)
    t2 u2 Option.none ⟨t1, (index db Option.none).2⟩
    (lookup_store_self emptyCache (indexCacheKey Option.none) t1
      (index db Option.none).2) hwin
  have h3 := cached_index_miss (createPost db p)
    (PageCache.clear (emptyCache.store (indexCacheKey Option.none) t1
      (index db Option.none).2)) t3 u3 Option.none rfl
  rw [h1]
  simp only [h2, h3]
  refine ⟨trivial, trivial, ?_, ?_⟩
  · rw [index_page_one]
    obtain ⟨t, ht⟩ := newestFirst_append_newest db.posts p hfresh
    show p ∈ (newestFirst (db.posts ++ [p])).take NUM_POSTS
    rw [ht]
    exact mem_take_head p t
  · intro hmem
    rw [index_page_one] at hmem
    have hin : p ∈ allPostsFeed db := List.take_subset _ _ hmem
    have hdb : p ∈ db.posts := by
      simpa [allPostsFeed, newestFirst] using hin
    exact absurd (hfresh p hdb) (lt_irrefl _)

/-- A concrete list of `n` posts with ascending ids and timestamps. -/
def manyPosts (n : Nat) : List Post :=
  (List.range n).map (fun i => ⟨i, "auth", "text", Option.none, i⟩)

/-- Witness for C3 at a 13-post collection: page 5 clamps to the last
page (2), and the non-numeric argument "abc" yields page 1 under both
idioms. -/
theorem get_page_clamp_and_default_witness :
    (Paginator.mk (manyPosts 13) NUM_POSTS).get_page (PageArg.int 5) =
      (Paginator.mk (manyPosts 13) NUM_POSTS).page
        (Paginator.mk (manyPosts 13) NUM_POSTS).num_pages ∧
    (Paginator.mk (manyPosts 13) NUM_POSTS).get_page
        (pageArgNoDefault (Option.some "abc")) =
      (Paginator.mk (manyPosts 13) NUM_POSTS).page 1 ∧
    (Paginator.mk (manyPosts 13) NUM_POSTS).get_page
        (pageArgDefaultOne (Option.some "abc")) =
      (Paginator.mk (manyPosts 13) NUM_POSTS).page 1 :=
  ⟨(get_page_clamp_and_default (manyPosts 13) (PageArg.int 5) 5
      (Option.some "abc")).1 rfl (by decide),
   ((get_page_clamp_and_default (manyPosts 13) (PageArg.int 5) 5
      (Option.some "abc")).2 (Or.inr ⟨"abc", rfl, by decide⟩)).1,
   ((get_page_clamp_and_default (manyPosts 13) (PageArg.int 5) 5
      (Option.some "abc")).2 (Or.inr ⟨"abc", rfl, by decide⟩)).2⟩

/-- Witness for C6 at a concrete store and times 0, 10, 30. -/
theorem cache_staleness_witness :
    ((cached_index (createPost wDB wPost2)
        (cached_index wDB emptyCache 0 "u1" Option.none).2.1 10 "u2" Option.none).2.2 =
      (cached_index wDB emptyCache 0 "u1" Option.none).2.2) ∧
    ((cached_index (createPost wDB wPost2)
        ((cached_index (createPost wDB wPost2)
          (cached_index wDB emptyCache 0 "u1" Option.none).2.1 10 "u2" Option.none).2.1).clear
        30 "u3" Option.none).2.2 = (index (createPost wDB wPost2) Option.none).2) ∧
    (wPost2 ∈ pageOf ((cached_index (createPost wDB wPost2)
        ((cached_index (createPost wDB wPost2)
          (cached_index wDB emptyCache 0 "u1" Option.none).2.1 10 "u2" Option.none).2.1).clear
        30 "u3" Option.none).2.2)) ∧
    (wPost2 ∉ pageOf ((cached_index (createPost wDB wPost2)
        (cached_index wDB emptyCache 0 "u1" Option.none).2.1 10 "u2" Option.none).2.2)) :=
  cache_staleness wDB wPost2 0 10 30 "u1" "u2" "u3" (by decide) (by decide)

/-- A concrete store with 11 posts, so that home-feed pages 1 and 2
render differently. -/
def cDB : DB := ⟨["auth"], [], manyPosts 11, [], []⟩

/-- C7 counterexample: after request 1 (no page argument) primes the
cache at time 0, a request at time 1 — inside the window — with page
argument "2" does not receive the same cached response: the page query
argument is part of the cache key, so the two requests do not collide
on one shared entry. -/
theorem cache_page_arg_counterexample :
    (cached_index cDB ((cached_index cDB emptyCache 0 "alice" Option.none).2.1)
        1 "bob" (Option.some "2")).2.2 ≠
      (cached_index cDB emptyCache 0 "alice" Option.none).2.2 := by
  decide

/-- C7 (amended): the home-feed cache entry is keyed by the constant
key-prefix together with the request's URL (path plus page query
argument) and by nothing else: the response never depends on the
requester's identity, distinct page arguments use distinct cache
entries, and any request finding a fresh entry under its key receives
exactly the stored response. -/
theorem cache_keyed_by_url_not_identity (db : DB) (c : PageCache) (now : Nat)
    (u1 u2 : String) (q q1 q2 : Option String) (e : CacheEntry) :
    cached_index db c now u1 q = cached_index db c now u2 q ∧
    (q1 ≠ q2 → indexCacheKey q1 ≠ indexCacheKey q2) ∧
    (c.lookup (indexCacheKey q) = Option.some e →
      now < e.storedAt + CACHE_TIMEOUT →
      cached_index db c now u1 q = (db, c, e.response)) := by
  refine ⟨rfl, ?_, ?_⟩
  · intro hne h
    apply hne
    simpa [indexCacheKey] using h
  · intro hl hw
    exact cached_index_hit db c now u1 q e hl hw

/-- A concrete cache entry for the C7 witness. -/
def wEntry : CacheEntry := ⟨0, Response.notFound⟩

/-- A concrete one-entry cache for the C7 witness. -/
def wCache : PageCache :=
  emptyCache.store (indexCacheKey Option.none) 0 Response.notFound

/-- Witness for C7 (amended) at a concrete cache. -/
theorem cache_keyed_by_url_not_identity_witness :
    indexCacheKey Option.none ≠ indexCacheKey (Option.some "2") ∧
    cached_index wDB wCache 5 "alice" Option.none =
      (wDB, wCache, wEntry.response) :=
  ⟨(cache_keyed_by_url_not_identity wDB wCache 5 "alice" "bob" Option.none
      Option.none (Option.some "2") wEntry).2.1 (by decide),
   (cache_keyed_by_url_not_identity wDB wCache 5 "alice" "bob" Option.none
      Option.none (Option.some "2") wEntry).2.2 (by decide) (by decide)⟩

end Yatube
